import Mathlib

/-!
Verification development for the weather-data scraping pipeline
(`scripts/extract_urls.py` and `scripts/extract_clean_data.py`).

Stage 2 (`extract_clean_data.py`) is modelled with an explicit data-frame
type: a row count together with an ordered list of named columns, each
column a list of cells.  A cell is `Option String`, where `none` stands for
the pandas null marker (NaN / None).  Column names are `Option String`
because `clean_data` renames columns to the values of the first transposed
row, which can themselves be null for padded cells.

Stage 1 (`extract_urls.py`) is modelled with insertion-ordered association
lists standing for Python dicts, and the Selenium page environment is
abstracted as a function from URL to either a fetch failure or the list of
discovered anchors.
-/

/-! ## Python string primitives -/

/-- Model of `str(x)` applied to a cell: pandas `astype(str)` renders NaN as `"nan"`. -/
def pyStr : Option String → String
  | none => "nan"
  | some s => s

/-- The character class `\s` of Python's `re` module (ASCII mode is enough
for the scraped values). -/
def pySpace (c : Char) : Bool :=
  c = ' ' || c = '\t' || c = '\n' || c = '\r' || c = '\x0b' || c = '\x0c'

/-- Model of `str.strip()` (model: ASCII whitespace, as in `a.text.strip()`):
drop whitespace from both ends. -/
def pyStrip (s : String) : String :=
  String.mk (((s.data.dropWhile pySpace).reverse.dropWhile pySpace).reverse)

/-- The character class `[0-9\.]` used by the temperature regexes. -/
def isDigitDot (c : Char) : Bool := c.isDigit || c = '.'

/-- Whether `p` is an initial segment of `cs` (literal part of a regex). -/
def startsL : List Char → List Char → Bool
  | [], _ => true
  | _ :: _, [] => false
  | p :: ps, c :: cs => p == c && startsL ps cs

/-- Case-insensitive literal match (`re.IGNORECASE`): on success returns the
matched characters of the input (original case, as `m.group(0)` does) and
the remaining input.  The pattern is given in lower case. -/
def ciMatch : List Char → List Char → Option (List Char × List Char)
  | [], cs => some ([], cs)
  | _ :: _, [] => none
  | p :: ps, c :: cs =>
    if c.toLower = p then
      match ciMatch ps cs with
      | some (m, r) => some (c :: m, r)
      | none => none
    else none

/-- Model of `.str.replace("\n", " (", regex=False)`: replace every newline by `" ("`. -/
def nlToParen : List Char → List Char
  | [] => []
  | c :: t => if c = '\n' then ' ' :: '(' :: nlToParen t else c :: nlToParen t

/-- Model of `v.endswith(")")`. -/
def endsParen (cs : List Char) : Bool := cs.getLast? == some ')'

/-! ## Regex models (one definition per regex literal of the source) -/

/-- Model of `re.search(r'^(Avg|Min|Max)\.?\s*Temperature', column, re.IGNORECASE)`,
returning `m.group(0)` (`clean_temperature`, line 180).  The anchor `^`
restricts the search to the start of the string; the alternatives have
distinct first letters, `\.?` and `\s*` are followed by letters outside
their classes, so the greedy scan below is the exact match semantics. -/
def tempLabel (column : String) : Option String :=
  let cs := column.data
  match ["avg".data, "min".data, "max".data].findSome? (fun k => ciMatch k cs) with
  | none => none
  | some (m1, r1) =>
    let m2r2 : List Char × List Char :=
      match r1 with
      | '.' :: t => (['.'], t)
      | t => ([], t)
    let m3 := m2r2.2.takeWhile pySpace
    let r3 := m2r2.2.dropWhile pySpace
    match ciMatch "temperature".data r3 with
    | none => none
    | some (m4, _) => some (String.mk (m1 ++ m2r2.1 ++ m3 ++ m4))

/-- Model of `s.str.extract(r'^(-?[0-9\.]+)\s*°C', expand=False)` on one value
(`clean_temperature`, line 189).  Anchored at the start; `[0-9\.]+` can
only succeed with its maximal run (a shorter run leaves a class character
where `°` is required), likewise `\s*`. -/
def extractCelsius (v : String) : Option String :=
  let negT : List Char × List Char :=
    match v.data with
    | '-' :: t => (['-'], t)
    | t => ([], t)
  let run := negT.2.takeWhile isDigitDot
  if run.isEmpty then none
  else
    let rest := (negT.2.drop run.length).dropWhile pySpace
    if startsL "°C".data rest then some (String.mk (negT.1 ++ run)) else none

/-- One attempt of `\((-?[0-9\.]+)\)\s*°F` at the current position. -/
def fahrAt : List Char → Option String
  | '(' :: t =>
    let negT : List Char × List Char :=
      match t with
      | '-' :: u => (['-'], u)
      | u => ([], u)
    let run := negT.2.takeWhile isDigitDot
    if run.isEmpty then none
    else
      match negT.2.drop run.length with
      | ')' :: r =>
        if startsL "°F".data (r.dropWhile pySpace) then some (String.mk (negT.1 ++ run))
        else none
      | _ => none
  | _ => none

/-- Model of `s.str.extract(r'\((-?[0-9\.]+)\)\s*°F', expand=False)` on one value
(`clean_temperature`, line 187): leftmost match of the unanchored search. -/
def searchFahr : List Char → Option String
  | [] => none
  | c :: t =>
    match fahrAt (c :: t) with
    | some r => some r
    | none => searchFahr t

/-- Model of `.str.extract(r'^(\d+)', expand=False)` on one value
(`clean_precipitation`, line 199). -/
def leadingDigits (s : String) : Option String :=
  let run := s.data.takeWhile Char.isDigit
  if run.isEmpty then none else some (String.mk run)

/-- One attempt of `\((\d+)\)` at the current position. -/
def parenDigitsAt : List Char → Option String
  | '(' :: t =>
    let run := t.takeWhile Char.isDigit
    if run.isEmpty then none
    else
      match t.drop run.length with
      | ')' :: _ => some (String.mk run)
      | _ => none
  | _ => none

/-- Model of `.str.extract(r'\((\d+)\)', expand=False)` on one value
(`clean_precipitation`, line 200): leftmost match of the search. -/
def searchParenDigits : List Char → Option String
  | [] => none
  | c :: t =>
    match parenDigitsAt (c :: t) with
    | some r => some r
    | none => searchParenDigits t

/-- Model of `.str.extract(r'(\d+)', expand=False)` on one value
(`clean_humidity`, line 209): leftmost maximal digit run. -/
def firstDigitRun : List Char → Option String
  | [] => none
  | c :: t =>
    if c.isDigit then some (String.mk (c :: t.takeWhile Char.isDigit))
    else firstDigitRun t

/-! ## Data frames -/

/-- The ordered column list of a frame: name paired with cell values. -/
abbrev Cols := List (Option String × List (Option String))

/-- A pandas data frame: a row count (the length of the index) and the
ordered, named columns.  Well-formed frames have every column of length
`nrows`; the operations below preserve this. -/
structure Frame where
  nrows : Nat
  cols : Cols
deriving DecidableEq, Repr

/-- First column with the given name (`df[c]` for a Series read). -/
def findCols (cols : Cols) (n : Option String) : Option (List (Option String)) :=
  (cols.find? (fun p => p.1 == n)).map Prod.snd

/-- Model of `df[c] = values`: every column labelled `c` is replaced in place;
if none exists the column is appended at the end. -/
def setCols (cols : Cols) (n : Option String) (v : List (Option String)) : Cols :=
  if cols.any (fun p => p.1 == n) then
    cols.map (fun p => if p.1 == n then (n, v) else p)
  else cols ++ [(n, v)]

/-- Number of columns labelled `n`. -/
def keyCount (cols : Cols) (n : Option String) : Nat :=
  (cols.filter (fun p => p.1 == n)).length

/-- Model of `c in df.columns`. -/
def Frame.hasCol (df : Frame) (n : Option String) : Bool :=
  df.cols.any (fun p => p.1 == n)

/-- Model of `df[c]` as a value read. -/
def Frame.getCol (df : Frame) (n : Option String) : Option (List (Option String)) :=
  findCols df.cols n

/-- Model of `df[c] = list_of_values` (length already checked by the caller). -/
def Frame.setCol (df : Frame) (n : Option String) (v : List (Option String)) : Frame :=
  ⟨df.nrows, setCols df.cols n v⟩

/-- Model of `df[c] = scalar`: the scalar is broadcast over the index. -/
def Frame.setColScalar (df : Frame) (n : Option String) (v : Option String) : Frame :=
  df.setCol n (List.replicate df.nrows v)

/-- Model of `df.drop(columns=[c])`: removes every column labelled `c`. -/
def Frame.dropCol (df : Frame) (n : Option String) : Frame :=
  ⟨df.nrows, df.cols.filter (fun p => !(p.1 == n))⟩

/-- Model of `df.transpose()`: cell (i, j) becomes cell (j, i); the new column labels
are the old integer index (immediately discarded by `clean_data`). -/
def Frame.transposeF (df : Frame) : Frame :=
  ⟨df.cols.length,
   (List.range df.nrows).map (fun i =>
     (some (toString i), df.cols.map (fun p => p.2.getD i none)))⟩

/-- Model of `df.columns = df.iloc[0]; df = df.iloc[1:].reset_index(drop=True)`
(`clean_data`, lines 142-143): each column is renamed to its first cell,
which is then dropped from the values.  The caller has already ruled out an
empty index (where `iloc[0]` raises). -/
def resetHeader (t : Frame) : Frame :=
  ⟨t.nrows - 1, t.cols.map (fun p => (p.2.head?.getD none, p.2.tail))⟩

/-- Model of `df[c] = list_of_values` including the pandas length check, which raises
`ValueError` when the list length differs from the index length. -/
def setColChecked (df : Frame) (n : Option String) (v : List (Option String)) :
    Except String Frame :=
  if v.length = df.nrows then Except.ok (df.setCol n v)
  else Except.error "ValueError: Length of values does not match length of index"

/-- Model of `pd.DataFrame(rows)` for the scraped list-of-lists grid: ragged rows are
padded with the null marker to the maximal row length. -/
def maxLen (grid : List (List String)) : Nat :=
  (grid.map List.length).foldr Nat.max 0

/-- Model of `pd.DataFrame(rows)` (caller of `clean_data`, line 319): `grid.length`
rows and `maxLen grid` integer-labelled columns. -/
def mkDf (grid : List (List String)) : Frame :=
  ⟨grid.length,
   (List.range (maxLen grid)).map (fun j =>
     (some (toString j), grid.map (fun row => row.get? j)))⟩

/-! ## Cleaning transforms (`extract_clean_data.py`) -/

/-- The fixed month list assigned by `clean_data` (lines 148-161). -/
def months : List String :=
  ["January", "February", "March", "April", "May", "June", "July",
   "August", "September", "October", "November", "December"]

/-- Model of `clean_data` (lines 136-169): transpose, promote the first row to the
header, attach Continent/Country/City/Month metadata, backfill the sun-hours
column.  `Except.error` marks the places where pandas raises: `iloc[0]` on an
empty index, and the 12-month list assignment when the index length is not
12. -/
def clean_data (df : Frame) (continent country city : String) : Except String Frame :=
  let t := df.transposeF
  if t.nrows = 0 then
    Except.error "IndexError: single positional indexer is out-of-bounds"
  else
    let d1 := resetHeader t
    let d2 := d1.setColScalar (some "Continent") (some continent)
    let d3 := d2.setColScalar (some "Country") (some country)
    let d4 := d3.setColScalar (some "City") (some city)
    match setColChecked d4 (some "Month") (months.map (fun m => some m)) with
    | Except.error e => Except.error e
    | Except.ok d5 =>
      let d6 :=
        if d5.hasCol (some "avg. Sun hours (hours)") then
          d5.setCol (some "avg. Sun hours (hours)")
            (((d5.getCol (some "avg. Sun hours (hours)")).getD []).map
              (fun cl => some (cl.getD "0")))
        else d5.setColScalar (some "avg. Sun hours (hours)") (some "0")
      Except.ok d6

/-- The `s` series of `clean_temperature` (lines 183-184): stringify,
replace newlines by `" ("`, close an unclosed parenthesis. -/
def tempPrep (cl : Option String) : String :=
  let v := String.mk (nlToParen (pyStr cl).data)
  if endsParen v.data then v else v ++ ")"

/-- Model of `clean_temperature` (lines 171-191).  Missing column: identity.
Otherwise extract Fahrenheit and Celsius into two new columns named after
the matched label and drop the combined column. -/
def clean_temperature (df : Frame) (column : String) : Frame :=
  if df.hasCol (some column) then
    let temperature_label := (tempLabel column).getD column
    let s := ((df.getCol (some column)).getD []).map tempPrep
    let d1 := df.setCol (some (temperature_label ++ " (°F)"))
      (s.map (fun v => searchFahr v.data))
    let d2 := d1.setCol (some (temperature_label ++ " (°C)"))
      (s.map (fun v => extractCelsius v))
    d2.dropCol (some column)
  else df

/-- Model of `clean_precipitation` (lines 194-202).  Missing column: identity.  The
source also computes `s = df[column].astype(str)` but never uses it; both
extractions read `df[column]` directly (null cells stay null under `.str`).
The second read happens after the first assignment, hence from `d1`. -/
def clean_precipitation (df : Frame) (column : String) : Frame :=
  if df.hasCol (some column) then
    let colv := (df.getCol (some column)).getD []
    let d1 := df.setCol (some "Precipitation / Rainfall (mm)")
      (colv.map (fun cl => cl.bind leadingDigits))
    let colv2 := (d1.getCol (some column)).getD []
    let d2 := d1.setCol (some "Precipitation / Rainfall (in)")
      (colv2.map (fun cl => cl.bind (fun s => searchParenDigits s.data)))
    d2.dropCol (some column)
  else df

/-- Model of `clean_humidity` (lines 205-210).  Missing column: identity. -/
def clean_humidity (df : Frame) (column : String) : Frame :=
  if df.hasCol (some column) then
    df.setCol (some column)
      (((df.getCol (some column)).getD []).map
        (fun cl => cl.bind (fun s => firstDigitRun s.data)))
  else df

/-- The fixed 15-column target schema of `reorder_columns` (lines 215-231). -/
def desired : List String :=
  ["Continent", "Country", "City", "Month",
   "Avg. Temperature (°F)", "Avg. Temperature (°C)",
   "Min. Temperature (°F)", "Min. Temperature (°C)",
   "Max. Temperature (°F)", "Max. Temperature (°C)",
   "Precipitation / Rainfall (in)", "Precipitation / Rainfall (mm)",
   "Humidity(%)", "Rainy days (d)", "avg. Sun hours (hours)"]

/-- The `for col in desired: if col not in df.columns: df[col] = None` loop
of `reorder_columns` (lines 232-234). -/
def fillMissing (df : Frame) : List String → Frame
  | [] => df
  | c :: rest =>
    if df.hasCol (some c) then fillMissing df rest
    else fillMissing (df.setCol (some c) (List.replicate df.nrows none)) rest

/-- Model of `reorder_columns` (lines 213-235): create the missing schema columns as
null, then project with `df[desired]` (which keeps, per requested label, all
columns carrying that label, in schema order). -/
def reorder_columns (df : Frame) : Frame :=
  let df1 := fillMissing df desired
  ⟨df1.nrows, (desired.map (fun c => df1.cols.filter (fun p => p.1 == some c))).flatten⟩

/-! ## Stage 1: URL extraction (`extract_urls.py`) -/

/-- A discovered `<a>` element: `a.text` and `a.get_attribute("href")`
(the attribute read can return `None`). -/
structure Anchor where
  text : String
  href : Option String
deriving DecidableEq, Repr

/-- The per-country entry: `{"url": href, "cities": {...}}`; the cities dict
maps a city label to its URL. -/
structure CountryInfo where
  url : String
  cities : List (String × String)
deriving DecidableEq, Repr

/-- The per-continent entry: `{"url": url, "countries": {...}}`. -/
structure ContInfo where
  url : String
  countries : List (String × CountryInfo)
deriving DecidableEq, Repr

/-- The seeded continent list (`extract_urls.py`, lines 60-67). -/
def CONTINENTS : List (String × String) :=
  [("North America", "https://en.climate-data.org/continent/north-america/"),
   ("South America", "https://en.climate-data.org/continent/south-america/"),
   ("Africa", "https://en.climate-data.org/continent/africa/"),
   ("Europe", "https://en.climate-data.org/continent/europe/"),
   ("Asia", "https://en.climate-data.org/continent/asia/"),
   ("Oceania", "https://en.climate-data.org/continent/oceania/")]

/-- Python dict assignment `d[k] = v` on an insertion-ordered dict: an
existing key keeps its position and gets the new value (last wins); a new
key is appended. -/
def dictInsert (d : List (String × α)) (k : String) (v : α) : List (String × α) :=
  if d.any (fun p => p.1 == k) then d.map (fun p => if p.1 == k then (k, v) else p)
  else d ++ [(k, v)]

/-- The country-collection loop of `extract_continents` (lines 135-143):
skip anchors with empty stripped text or empty/missing href, insert accepted
ones, and break once the accepted count reaches a non-zero
`max_countries`. -/
def addCountries (max_countries : Nat) :
    List Anchor → Nat → List (String × CountryInfo) → List (String × CountryInfo)
  | [], _, acc => acc
  | a :: rest, count, acc =>
    let text := pyStrip a.text
    match a.href with
    | none => addCountries max_countries rest count acc
    | some href =>
      if text ≠ "" ∧ href ≠ "" then
        let acc1 := dictInsert acc text ⟨href, []⟩
        if max_countries ≠ 0 ∧ count + 1 ≥ max_countries then acc1
        else addCountries max_countries rest (count + 1) acc1
      else addCountries max_countries rest count acc

/-- Model of `extract_continents` (lines 123-149).  The Selenium session is
abstracted as `fetch`: per continent URL, either a fetch/timeout failure or
the document-ordered anchor list.  A failure leaves the seeded entry with an
empty countries dict and the loop continues with the next continent. -/
def extract_continents (fetch : String → Except Unit (List Anchor))
    (max_countries : Nat) : List (String × ContInfo) :=
  CONTINENTS.map (fun p =>
    (p.1, { url := p.2,
            countries :=
              match fetch p.2 with
              | Except.error _ => []
              | Except.ok anchors => addCountries max_countries anchors 0 [] }))

/-- The city-collection loop of `extract_cities` (lines 173-177). -/
def addCities : List Anchor → List (String × String) → List (String × String)
  | [], acc => acc
  | a :: rest, acc =>
    let text := pyStrip a.text
    match a.href with
    | none => addCities rest acc
    | some href =>
      if text ≠ "" ∧ href ≠ "" then addCities rest (dictInsert acc text href)
      else addCities rest acc

/-- Model of `extract_cities` (lines 152-195).  Per country URL, `fetch` yields either
the anchors found in the 4th table cell or a failure (timeout, missing table,
dismissed alert, any other exception) — every failure path of the source
leaves that country's cities dict as it was and continues with the next
sibling. -/
def extract_cities (fetch : String → Except Unit (List Anchor))
    (result : List (String × ContInfo)) : List (String × ContInfo) :=
  result.map (fun p =>
    (p.1, { url := p.2.url,
            countries := p.2.countries.map (fun q =>
              (q.1, { url := q.2.url,
                      cities :=
                        match fetch q.2.url with
                        | Except.error _ => q.2.cities
                        | Except.ok anchors => addCities anchors q.2.cities })) }))

/-- One row of the flattened tabular CSV view (lines 246-271). -/
structure FlatRow where
  continent : String
  country : String
  country_url : String
  city : Option String
  city_url : Option String
deriving DecidableEq, Repr

/-- The per-country body of the flatten loop (lines 249-271): a country
without cities contributes one row with null city fields, otherwise one row
per city. -/
def flattenCountry (cont_name : String) (q : String × CountryInfo) : List FlatRow :=
  match q.2.cities with
  | [] => [⟨cont_name, q.1, q.2.url, none, none⟩]
  | cs => cs.map (fun c => ⟨cont_name, q.1, q.2.url, some c.1, some c.2⟩)

/-- The full flatten loop over the scraped tree (lines 246-271). -/
def flattenTree (tree : List (String × ContInfo)) : List FlatRow :=
  (tree.map (fun p => (p.2.countries.map (flattenCountry p.1)).flatten)).flatten

/-! ## Basic lemmas about the frame operations -/

theorem findCols_nil (n : Option String) : findCols [] n = none := rfl

theorem findCols_cons (p : Option String × List (Option String)) (t : Cols)
    (n : Option String) :
    findCols (p :: t) n = if p.1 == n then some p.2 else findCols t n := by
  by_cases h : p.1 == n <;> simp [findCols, List.find?_cons, h]

theorem keyCount_nil (n : Option String) : keyCount [] n = 0 := rfl

theorem keyCount_cons (p : Option String × List (Option String)) (t : Cols)
    (n : Option String) :
    keyCount (p :: t) n = (if p.1 == n then 1 else 0) + keyCount t n := by
  by_cases h : p.1 == n <;> simp [keyCount, List.filter_cons, h, Nat.add_comm]

theorem hasKey_iff_keyCount (cols : Cols) (n : Option String) :
    cols.any (fun p => p.1 == n) = true ↔ keyCount cols n ≠ 0 := by
  induction cols with
  | nil => simp [keyCount_nil]
  | cons p t ih =>
    by_cases h : p.1 == n <;> simp [List.any_cons, h, keyCount_cons, ih]

theorem findCols_map_self (t : Cols) (n : Option String) (v : List (Option String))
    (ha : t.any (fun p => p.1 == n) = true) :
    findCols (t.map (fun p => if p.1 == n then (n, v) else p)) n = some v := by
  induction t with
  | nil => simp at ha
  | cons p t ih =>
    by_cases h : p.1 = n
    · simp [findCols_cons, h]
    · have hb : (p.1 == n) = false := beq_eq_false_iff_ne.mpr h
      simp only [List.any_cons, hb, Bool.false_or] at ha
      have ihh := ih ha
      simp only [beq_iff_eq] at ihh
      simp [findCols_cons, h, ihh]

theorem findCols_map_ne (t : Cols) (n m : Option String) (v : List (Option String))
    (hnm : m ≠ n) :
    findCols (t.map (fun p => if p.1 == n then (n, v) else p)) m = findCols t m := by
  induction t with
  | nil => rfl
  | cons p t ih =>
    simp only [beq_iff_eq] at ih
    by_cases h : p.1 = n
    · simp [findCols_cons, h, Ne.symm hnm, ih]
    · by_cases hpm : p.1 = m <;> simp [findCols_cons, h, hpm, hnm, ih]

theorem findCols_none_of_not_any (t : Cols) (n : Option String)
    (ha : t.any (fun p => p.1 == n) = false) :
    findCols t n = none := by
  induction t with
  | nil => rfl
  | cons p t ih =>
    simp only [List.any_cons, Bool.or_eq_false_iff] at ha
    simp [findCols_cons, ha.1, ih ha.2]

theorem findCols_append_single_self (t : Cols) (n : Option String)
    (v : List (Option String)) (ha : t.any (fun p => p.1 == n) = false) :
    findCols (t ++ [(n, v)]) n = some v := by
  induction t with
  | nil => simp [findCols_cons]
  | cons p t ih =>
    simp only [List.any_cons, Bool.or_eq_false_iff] at ha
    simp [findCols_cons, ha.1, ih ha.2]

theorem findCols_append_single_ne (t : Cols) (n m : Option String)
    (v : List (Option String)) (hnm : m ≠ n) :
    findCols (t ++ [(n, v)]) m = findCols t m := by
  induction t with
  | nil =>
    have : (n == m) = false := beq_eq_false_iff_ne.mpr (Ne.symm hnm)
    simp [findCols_cons, this, findCols_nil]
  | cons p t ih =>
    by_cases h : p.1 == m <;> simp [findCols_cons, h, ih]

theorem findCols_setCols_self (cols : Cols) (n : Option String)
    (v : List (Option String)) :
    findCols (setCols cols n v) n = some v := by
  unfold setCols
  by_cases ha : cols.any (fun p => p.1 == n)
  · simp only [ha, if_true]
    exact findCols_map_self cols n v ha
  · simp only [Bool.not_eq_true] at ha
    simp only [ha, Bool.false_eq_true, if_false]
    exact findCols_append_single_self cols n v ha

theorem findCols_setCols_ne (cols : Cols) (n m : Option String)
    (v : List (Option String)) (hnm : m ≠ n) :
    findCols (setCols cols n v) m = findCols cols m := by
  unfold setCols
  by_cases ha : cols.any (fun p => p.1 == n)
  · simp only [ha, if_true]
    exact findCols_map_ne cols n m v hnm
  · simp only [Bool.not_eq_true] at ha
    simp only [ha, Bool.false_eq_true, if_false]
    exact findCols_append_single_ne cols n m v hnm

theorem keyCount_map_self (t : Cols) (n : Option String) (v : List (Option String)) :
    keyCount (t.map (fun p => if p.1 == n then (n, v) else p)) n = keyCount t n := by
  induction t with
  | nil => rfl
  | cons p t ih =>
    simp only [beq_iff_eq] at ih
    by_cases h : p.1 = n <;> simp [keyCount_cons, h, ih]

theorem keyCount_map_ne (t : Cols) (n m : Option String) (v : List (Option String))
    (hnm : m ≠ n) :
    keyCount (t.map (fun p => if p.1 == n then (n, v) else p)) m = keyCount t m := by
  induction t with
  | nil => rfl
  | cons p t ih =>
    simp only [beq_iff_eq] at ih
    by_cases h : p.1 = n
    · simp [keyCount_cons, h, Ne.symm hnm, ih]
    · by_cases hpm : p.1 = m <;> simp [keyCount_cons, h, hpm, hnm, ih]

theorem keyCount_append (l1 l2 : Cols) (m : Option String) :
    keyCount (l1 ++ l2) m = keyCount l1 m + keyCount l2 m := by
  simp [keyCount, List.filter_append]

theorem keyCount_setCols_self (cols : Cols) (n : Option String)
    (v : List (Option String)) :
    keyCount (setCols cols n v) n =
      if keyCount cols n = 0 then 1 else keyCount cols n := by
  unfold setCols
  by_cases ha : cols.any (fun p => p.1 == n)
  · have hk := (hasKey_iff_keyCount cols n).mp ha
    simp only [ha, if_true, hk, if_false]
    exact keyCount_map_self cols n v
  · have hk : keyCount cols n = 0 := by
      by_contra hc
      exact ha ((hasKey_iff_keyCount cols n).mpr hc)
    simp only [Bool.not_eq_true] at ha
    simp only [ha, Bool.false_eq_true, if_false, hk, if_true]
    simp [keyCount_append, hk, keyCount_cons, keyCount_nil]

theorem keyCount_setCols_ne (cols : Cols) (n m : Option String)
    (v : List (Option String)) (hnm : m ≠ n) :
    keyCount (setCols cols n v) m = keyCount cols m := by
  unfold setCols
  by_cases ha : cols.any (fun p => p.1 == n)
  · simp only [ha, if_true]
    exact keyCount_map_ne cols n m v hnm
  · simp only [Bool.not_eq_true] at ha
    simp only [ha, Bool.false_eq_true, if_false]
    have hm2 : (n == m) = false := beq_eq_false_iff_ne.mpr (Ne.symm hnm)
    simp [keyCount_append, keyCount_cons, keyCount_nil, hm2]

theorem setCol_nrows (df : Frame) (n : Option String) (v : List (Option String)) :
    (df.setCol n v).nrows = df.nrows := rfl

theorem setCol_cols (df : Frame) (n : Option String) (v : List (Option String)) :
    (df.setCol n v).cols = setCols df.cols n v := rfl

theorem hasCol_false_iff (df : Frame) (n : Option String) :
    df.hasCol n = false ↔ keyCount df.cols n = 0 := by
  constructor
  · intro h
    by_contra hc
    have := (hasKey_iff_keyCount df.cols n).mpr hc
    rw [Frame.hasCol] at h
    simp [this] at h
  · intro h
    rw [Frame.hasCol]
    cases ha : df.cols.any (fun p => p.1 == n)
    · rfl
    · exact absurd h ((hasKey_iff_keyCount df.cols n).mp ha)

theorem keyCount_eq_zero (cols : Cols) (n : Option String) :
    keyCount cols n = 0 ↔ ∀ p ∈ cols, p.1 ≠ n := by
  simp [keyCount, List.length_eq_zero, List.filter_eq_nil_iff]

theorem keyCount_le_one_of_nodup (cols : Cols)
    (h : (cols.map Prod.fst).Nodup) (k : Option String) : keyCount cols k ≤ 1 := by
  induction cols with
  | nil => simp [keyCount_nil]
  | cons p t ih =>
    rw [List.map_cons, List.nodup_cons] at h
    rw [keyCount_cons]
    by_cases hp : p.1 = k
    · subst hp
      have h0 : keyCount t p.1 = 0 := by
        rw [keyCount_eq_zero]
        intro q hq he
        exact h.1 (he ▸ List.mem_map_of_mem Prod.fst hq)
      simp [h0]
    · simp [hp, ih h.2]

theorem keyCount_le_one_step (df : Frame) (c : String)
    (h : ∀ k, keyCount df.cols k ≤ 1) (k : Option String) :
    keyCount (df.setCol (some c) (List.replicate df.nrows none)).cols k ≤ 1 := by
  rw [setCol_cols]
  by_cases hk : k = some c
  · subst hk
    rw [keyCount_setCols_self]
    split
    · exact Nat.le_refl 1
    · exact h (some c)
  · rw [keyCount_setCols_ne _ _ _ _ hk]
    exact h k

theorem fillMissing_nrows (df : Frame) (L : List String) :
    (fillMissing df L).nrows = df.nrows := by
  induction L generalizing df with
  | nil => rfl
  | cons c rest ih =>
    by_cases h : df.hasCol (some c) <;>
      simp [fillMissing, h, ih, setCol_nrows]

theorem fillMissing_keyCount_le (df : Frame) (L : List String)
    (h : ∀ k, keyCount df.cols k ≤ 1) (k : Option String) :
    keyCount (fillMissing df L).cols k ≤ 1 := by
  induction L generalizing df with
  | nil => exact h k
  | cons c rest ih =>
    by_cases hc : df.hasCol (some c)
    · simpa [fillMissing, hc] using ih df h
    · simpa [fillMissing, hc] using
        ih (df.setCol (some c) (List.replicate df.nrows none))
          (keyCount_le_one_step df c h)

theorem fillMissing_keyCount_stable (df : Frame) (L : List String)
    (n : Option String) (h : keyCount df.cols n ≠ 0) :
    keyCount (fillMissing df L).cols n = keyCount df.cols n := by
  induction L generalizing df with
  | nil => rfl
  | cons c rest ih =>
    by_cases hc : df.hasCol (some c)
    · simpa [fillMissing, hc] using ih df h
    · have hcc : keyCount df.cols (some c) = 0 := (hasCol_false_iff df (some c)).mp (by simpa using hc)
      have hne : n ≠ some c := fun he => h (he ▸ hcc)
      have hstep : keyCount (df.setCol (some c) (List.replicate df.nrows none)).cols n
          = keyCount df.cols n := by
        rw [setCol_cols]; exact keyCount_setCols_ne _ _ _ _ hne
      have := ih (df.setCol (some c) (List.replicate df.nrows none)) (by rw [hstep]; exact h)
      simpa [fillMissing, hc, hstep] using this

theorem fillMissing_keyCount_pos (df : Frame) (L : List String)
    (h : ∀ k, keyCount df.cols k ≤ 1) (c : String) (hc : c ∈ L) :
    keyCount (fillMissing df L).cols (some c) = 1 := by
  induction L generalizing df with
  | nil => cases hc
  | cons d rest ih =>
    rcases List.mem_cons.mp hc with he | hr
    · subst he
      by_cases hcol : df.hasCol (some c)
      · have hk : keyCount df.cols (some c) ≠ 0 := by
          intro h0
          rw [← hasCol_false_iff] at h0
          simp [hcol] at h0
        have h1 : keyCount df.cols (some c) = 1 :=
          Nat.le_antisymm (h (some c)) (Nat.one_le_iff_ne_zero.mpr hk)
        have := fillMissing_keyCount_stable df rest (some c) hk
        simp [fillMissing, hcol, this, h1]
      · have hset : keyCount (df.setCol (some c) (List.replicate df.nrows none)).cols (some c) = 1 := by
          rw [setCol_cols, keyCount_setCols_self]
          have := (hasCol_false_iff df (some c)).mp (by simpa using hcol)
          simp [this]
        have := fillMissing_keyCount_stable
          (df.setCol (some c) (List.replicate df.nrows none)) rest (some c)
          (by rw [hset]; exact Nat.one_ne_zero)
        simp [fillMissing, hcol, this, hset]
    · by_cases hcol : df.hasCol (some d)
      · simpa [fillMissing, hcol] using ih df h hr
      · simpa [fillMissing, hcol] using
          ih (df.setCol (some d) (List.replicate df.nrows none))
            (keyCount_le_one_step df d h) hr

theorem fillMissing_findCols_notmem (df : Frame) (L : List String) (c : String)
    (hc : c ∉ L) :
    findCols (fillMissing df L).cols (some c) = findCols df.cols (some c) := by
  induction L generalizing df with
  | nil => rfl
  | cons d rest ih =>
    have hdc : c ≠ d := fun he => hc (he ▸ List.mem_cons_self d rest)
    have hrest : c ∉ rest := fun hm => hc (List.mem_cons_of_mem d hm)
    by_cases hcol : df.hasCol (some d)
    · simpa [fillMissing, hcol] using ih df hrest
    · have hstep : findCols (df.setCol (some d) (List.replicate df.nrows none)).cols (some c)
          = findCols df.cols (some c) := by
        rw [setCol_cols]
        exact findCols_setCols_ne _ _ _ _ (by simpa using hdc)
      have := ih (df.setCol (some d) (List.replicate df.nrows none)) hrest
      simpa [fillMissing, hcol, hstep] using this

theorem fillMissing_findCols_absent (df : Frame) (L : List String) (c : String)
    (hnd : L.Nodup) (hc : c ∈ L) (h0 : keyCount df.cols (some c) = 0) :
    findCols (fillMissing df L).cols (some c)
      = some (List.replicate df.nrows none) := by
  induction L generalizing df with
  | nil => cases hc
  | cons d rest ih =>
    rcases List.mem_cons.mp hc with he | hr
    · subst he
      have hcol : df.hasCol (some c) = false := (hasCol_false_iff df (some c)).mpr h0
      have hnm : c ∉ rest := by
        have := List.nodup_cons.mp hnd
        exact this.1
      have hset : findCols (df.setCol (some c) (List.replicate df.nrows none)).cols (some c)
          = some (List.replicate df.nrows none) := by
        rw [setCol_cols]; exact findCols_setCols_self _ _ _
      have := fillMissing_findCols_notmem
        (df.setCol (some c) (List.replicate df.nrows none)) rest c hnm
      simp [fillMissing, hcol, this, hset]
    · have hrest_nd : rest.Nodup := (List.nodup_cons.mp hnd).2
      have hcd : c ≠ d := by
        intro he
        subst he
        exact (List.nodup_cons.mp hnd).1 hr
      by_cases hcol : df.hasCol (some d)
      · simpa [fillMissing, hcol] using ih df hrest_nd hr h0
      · have hstep : keyCount (df.setCol (some d) (List.replicate df.nrows none)).cols (some c) = 0 := by
          rw [setCol_cols, keyCount_setCols_ne _ _ _ _ (by simpa using hcd)]
          exact h0
        simpa [fillMissing, hcol] using
          ih (df.setCol (some d) (List.replicate df.nrows none)) hrest_nd hr hstep

theorem filter_map_fst (cols : Cols) (n : Option String) :
    (cols.filter (fun p => p.1 == n)).map Prod.fst = List.replicate (keyCount cols n) n := by
  induction cols with
  | nil => rfl
  | cons p t ih =>
    by_cases h : p.1 = n
    · simp [List.filter_cons, keyCount_cons, h, ih, List.replicate_succ, Nat.add_comm]
    · simp [List.filter_cons, keyCount_cons, h, ih]

theorem findCols_filter_self (cols : Cols) (n : Option String) :
    findCols (cols.filter (fun p => p.1 == n)) n = findCols cols n := by
  induction cols with
  | nil => rfl
  | cons p t ih =>
    by_cases h : p.1 = n <;> simp [List.filter_cons, findCols_cons, h, ih]

theorem findCols_filter_ne (cols : Cols) (n m : Option String) (h : m ≠ n) :
    findCols (cols.filter (fun p => p.1 == n)) m = none := by
  induction cols with
  | nil => rfl
  | cons p t ih =>
    by_cases hp : p.1 = n
    · simp [List.filter_cons, findCols_cons, hp, Ne.symm h, ih]
    · simp [List.filter_cons, hp, ih]

theorem findCols_append_some (l1 l2 : Cols) (m : Option String)
    (w : List (Option String)) (h : findCols l1 m = some w) :
    findCols (l1 ++ l2) m = some w := by
  induction l1 with
  | nil => simp [findCols_nil] at h
  | cons p t ih =>
    by_cases hp : p.1 = m
    · simp [findCols_cons, hp] at h ⊢
      exact h
    · simp [findCols_cons, hp] at h ⊢
      exact ih h

theorem findCols_append_none (l1 l2 : Cols) (m : Option String)
    (h : findCols l1 m = none) : findCols (l1 ++ l2) m = findCols l2 m := by
  induction l1 with
  | nil => rfl
  | cons p t ih =>
    by_cases hp : p.1 = m
    · simp [findCols_cons, hp] at h
    · simp [findCols_cons, hp] at h ⊢
      exact ih h

theorem findCols_flatten_none (cols : Cols) (L : List String) (c : String)
    (h : ∀ d ∈ L, d ≠ c) :
    findCols ((L.map (fun d => cols.filter (fun p => p.1 == some d))).flatten)
      (some c) = none := by
  induction L with
  | nil => rfl
  | cons d rest ih =>
    simp only [List.map_cons, List.flatten_cons]
    rw [findCols_append_none _ _ _
      (findCols_filter_ne cols (some d) (some c)
        (by simpa using Ne.symm (h d (List.mem_cons_self d rest))))]
    exact ih (fun e he => h e (List.mem_cons_of_mem d he))

theorem findCols_flatten_chunks (cols : Cols) (L : List String) (c : String)
    (hnd : L.Nodup) (hc : c ∈ L) :
    findCols ((L.map (fun d => cols.filter (fun p => p.1 == some d))).flatten)
      (some c) = findCols cols (some c) := by
  induction L with
  | nil => cases hc
  | cons d rest ih =>
    simp only [List.map_cons, List.flatten_cons]
    rcases List.mem_cons.mp hc with he | hr
    · subst he
      cases hf : findCols (cols.filter (fun p => p.1 == some c)) (some c) with
      | some w =>
        rw [findCols_append_some _ _ _ w hf, ← findCols_filter_self cols (some c), hf]
      | none =>
        rw [findCols_append_none _ _ _ hf]
        rw [findCols_flatten_none cols rest c
          (fun e he2 hec => (List.nodup_cons.mp hnd).1 (hec ▸ he2))]
        rw [← findCols_filter_self cols (some c), hf]
    · have hcd : c ≠ d := fun he => (List.nodup_cons.mp hnd).1 (he ▸ hr)
      rw [findCols_append_none _ _ _
        (findCols_filter_ne cols (some d) (some c) (by simpa using hcd))]
      exact ih (List.nodup_cons.mp hnd).2 hr

theorem flatten_chunks_map_fst (cols : Cols) (L : List String)
    (h : ∀ c ∈ L, keyCount cols (some c) = 1) :
    ((L.map (fun c => cols.filter (fun p => p.1 == some c))).flatten).map Prod.fst
      = L.map some := by
  induction L with
  | nil => rfl
  | cons c rest ih =>
    simp only [List.map_cons, List.flatten_cons, List.map_append]
    rw [filter_map_fst, h c (List.mem_cons_self c rest),
      ih (fun d hd => h d (List.mem_cons_of_mem c hd))]
    rfl

/-! ## Claim theorems -/

/-- C1: for every input frame (whose column labels form a set, i.e. carry no
duplicates), `reorder_columns` returns a frame with exactly the 15 fixed
schema columns in the fixed order, and every schema column absent from the
input is present in the output filled with the null marker in every row. -/
theorem reorder_columns_schema (df : Frame)
    (hnd : (df.cols.map Prod.fst).Nodup) :
    (reorder_columns df).cols.map Prod.fst = desired.map some ∧
    (∀ c ∈ desired, df.hasCol (some c) = false →
      (reorder_columns df).getCol (some c) = some (List.replicate df.nrows none)) := by
  have h1 : ∀ k, keyCount df.cols k ≤ 1 := keyCount_le_one_of_nodup df.cols hnd
  have hdn : desired.Nodup := by decide
  constructor
  · show ((desired.map
      (fun c => (fillMissing df desired).cols.filter (fun p => p.1 == some c))).flatten).map
        Prod.fst = desired.map some
    exact flatten_chunks_map_fst (fillMissing df desired).cols desired
      (fun c hc => fillMissing_keyCount_pos df desired h1 c hc)
  · intro c hc h0
    have hk0 : keyCount df.cols (some c) = 0 := (hasCol_false_iff df (some c)).mp h0
    show findCols ((desired.map
      (fun d => (fillMissing df desired).cols.filter (fun p => p.1 == some d))).flatten)
        (some c) = some (List.replicate df.nrows none)
    rw [findCols_flatten_chunks _ desired c hdn hc]
    exact fillMissing_findCols_absent df desired c hdn hc hk0

/-- Witness for C1 at a concrete two-column frame. -/
theorem reorder_columns_schema_witness :
    (reorder_columns ⟨1, [(some "Month", [some "May"]), (some "Junk", [some "z"])]⟩).cols.map
      Prod.fst = desired.map some ∧
    (reorder_columns ⟨1, [(some "Month", [some "May"]), (some "Junk", [some "z"])]⟩).getCol
      (some "Humidity(%)") = some (List.replicate 1 none) :=
  ⟨(reorder_columns_schema ⟨1, [(some "Month", [some "May"]), (some "Junk", [some "z"])]⟩
      (by decide)).1,
   (reorder_columns_schema ⟨1, [(some "Month", [some "May"]), (some "Junk", [some "z"])]⟩
      (by decide)).2 "Humidity(%)" (by decide) (by decide)⟩

/-- C2 counterexample: on the documented cell value `"40 (1.6)"` the inches
extraction does not produce `"1"` — the regex `\((\d+)\)` requires the
closing parenthesis right after the digits, so `"(1.6)"` has no match at
all and the cell becomes the null marker. -/
theorem clean_precipitation_inches_counterexample :
    (clean_precipitation ⟨1, [(some "Precipitation / Rainfall mm (in)", [some "40 (1.6)"])]⟩
        "Precipitation / Rainfall mm (in)").getCol (some "Precipitation / Rainfall (in)")
      ≠ some [some "1"] := by decide

/-- C2 (amended): on a frame whose precipitation column holds `"40 (1.6)"`,
`clean_precipitation` produces mm = `"40"`, inches = the null marker (the
inches regex finds no match in `"(1.6)"`), and drops the combined column. -/
theorem clean_precipitation_split :
    (clean_precipitation ⟨1, [(some "Precipitation / Rainfall mm (in)", [some "40 (1.6)"])]⟩
        "Precipitation / Rainfall mm (in)").getCol (some "Precipitation / Rainfall (mm)")
      = some [some "40"] ∧
    (clean_precipitation ⟨1, [(some "Precipitation / Rainfall mm (in)", [some "40 (1.6)"])]⟩
        "Precipitation / Rainfall mm (in)").getCol (some "Precipitation / Rainfall (in)")
      = some [none] ∧
    (clean_precipitation ⟨1, [(some "Precipitation / Rainfall mm (in)", [some "40 (1.6)"])]⟩
        "Precipitation / Rainfall mm (in)").hasCol (some "Precipitation / Rainfall mm (in)")
      = false := by decide

/-- C5: on a frame whose `"Avg. Temperature °C (°F)"` column holds the cell
`"21.9°C\n(71.4) °F"`, `clean_temperature` produces Celsius `"21.9"` and
Fahrenheit `"71.4"` and drops the combined column. -/
theorem clean_temperature_split_example :
    (clean_temperature ⟨1, [(some "Avg. Temperature °C (°F)", [some "21.9°C\n(71.4) °F"])]⟩
        "Avg. Temperature °C (°F)").getCol (some "Avg. Temperature (°C)")
      = some [some "21.9"] ∧
    (clean_temperature ⟨1, [(some "Avg. Temperature °C (°F)", [some "21.9°C\n(71.4) °F"])]⟩
        "Avg. Temperature °C (°F)").getCol (some "Avg. Temperature (°F)")
      = some [some "71.4"] ∧
    (clean_temperature ⟨1, [(some "Avg. Temperature °C (°F)", [some "21.9°C\n(71.4) °F"])]⟩
        "Avg. Temperature °C (°F)").hasCol (some "Avg. Temperature °C (°F)")
      = false := by decide

/-- C6: applied to a column name absent from the frame, `clean_temperature`,
`clean_precipitation` and `clean_humidity` are all the identity transform. -/
theorem clean_absent_column_identity (df : Frame) (column : String)
    (h : df.hasCol (some column) = false) :
    clean_temperature df column = df ∧ clean_precipitation df column = df ∧
      clean_humidity df column = df := by
  unfold clean_temperature clean_precipitation clean_humidity
  simp [h]

/-- Witness for C6 at a concrete frame and absent column. -/
theorem clean_absent_column_identity_witness :
    clean_temperature ⟨1, [(some "A", [some "x"])]⟩ "B" = ⟨1, [(some "A", [some "x"])]⟩ ∧
    clean_precipitation ⟨1, [(some "A", [some "x"])]⟩ "B" = ⟨1, [(some "A", [some "x"])]⟩ ∧
    clean_humidity ⟨1, [(some "A", [some "x"])]⟩ "B" = ⟨1, [(some "A", [some "x"])]⟩ :=
  clean_absent_column_identity ⟨1, [(some "A", [some "x"])]⟩ "B" (by decide)

theorem setColChecked_month_error (d : Frame) (hd : d.nrows ≠ 12) :
    setColChecked d (some "Month") (months.map (fun m => some m))
      = Except.error "ValueError: Length of values does not match length of index" := by
  unfold setColChecked
  rw [if_neg]
  intro hlen
  apply hd
  rw [← hlen]
  rfl

theorem setColChecked_month_ok (d : Frame) (hd : d.nrows = 12) :
    setColChecked d (some "Month") (months.map (fun m => some m))
      = Except.ok (d.setCol (some "Month") (months.map (fun m => some m))) := by
  unfold setColChecked
  rw [if_pos]
  show (months.map (fun m => some m)).length = d.nrows
  rw [hd]
  rfl

theorem clean_data_raises_of_short (df : Frame) (a b c : String)
    (h : df.cols.length ≤ 12) :
    ∃ e, clean_data df a b c = Except.error e := by
  by_cases h0 : df.cols.length = 0
  · refine ⟨"IndexError: single positional indexer is out-of-bounds", ?_⟩
    simp only [clean_data]
    rw [if_pos (show (Frame.transposeF df).nrows = 0 from h0)]
  · refine ⟨"ValueError: Length of values does not match length of index", ?_⟩
    simp only [clean_data]
    rw [if_neg (show ¬ ((Frame.transposeF df).nrows = 0) from h0)]
    rw [setColChecked_month_error]
    show ¬ (df.cols.length - 1 = 12)
    omega

theorem clean_data_ok_of_13 (df : Frame) (a b c : String) (h : df.cols.length = 13) :
    ∃ res, clean_data df a b c = Except.ok res ∧ res.nrows = 12 ∧
      res.getCol (some "Month") = some (months.map (fun m => some m)) := by
  simp only [clean_data]
  rw [if_neg (show ¬ ((Frame.transposeF df).nrows = 0) by
    show ¬ (df.cols.length = 0); omega)]
  rw [setColChecked_month_ok]
  case hd => show df.cols.length - 1 = 12; omega
  dsimp only
  have hne : (some "Month" : Option String) ≠ some "avg. Sun hours (hours)" := by decide
  by_cases hsun :
      (((((resetHeader (Frame.transposeF df)).setColScalar (some "Continent")
        (some a)).setColScalar (some "Country") (some b)).setColScalar (some "City")
        (some c)).setCol (some "Month") (months.map (fun m => some m))).hasCol
        (some "avg. Sun hours (hours)")
  · rw [if_pos hsun]
    refine ⟨_, rfl, ?_, ?_⟩
    · show df.cols.length - 1 = 12
      omega
    · show findCols (setCols (setCols _ (some "Month") (months.map (fun m => some m)))
        (some "avg. Sun hours (hours)") _) (some "Month") = _
      rw [findCols_setCols_ne _ _ _ _ hne, findCols_setCols_self]
  · rw [if_neg hsun]
    refine ⟨_, rfl, ?_, ?_⟩
    · show df.cols.length - 1 = 12
      omega
    · show findCols (setCols (setCols _ (some "Month") (months.map (fun m => some m)))
        (some "avg. Sun hours (hours)") _) (some "Month") = _
      rw [findCols_setCols_ne _ _ _ _ hne, findCols_setCols_self]

theorem maxLen_const (l : List (List String)) (k : Nat) (hne : l ≠ [])
    (h : ∀ r ∈ l, r.length = k) : maxLen l = k := by
  induction l with
  | nil => cases hne rfl
  | cons r t ih =>
    cases t with
    | nil =>
      show Nat.max r.length (maxLen []) = k
      rw [h r (List.mem_cons_self r [])]
      exact Nat.max_zero k
    | cons r2 t2 =>
      show Nat.max r.length (maxLen (r2 :: t2)) = k
      rw [ih (by simp) (fun q hq => h q (List.mem_cons_of_mem r hq)),
        h r (List.mem_cons_self _ _)]
      exact Nat.max_self k

theorem mkDf_cols_length (grid : List (List String)) :
    (mkDf grid).cols.length = maxLen grid := by
  simp [mkDf]

/-- C3 counterexample: a raw grid whose transpose has fewer than 12 data
rows (here: one data row) makes `clean_data` raise — pandas refuses to
assign the 12-element month list to a 1-row index — instead of returning a
frame with positionally assigned month labels. -/
theorem clean_data_short_grid_counterexample :
    clean_data (mkDf [["h", "a"], ["i", "b"]]) "Europe" "France" "Paris"
      = Except.error "ValueError: Length of values does not match length of index" := by
  rfl

/-- C3 (amended): for every raw grid whose transpose yields fewer than 12
data rows after the header row is taken (at most 12 transposed rows in
total), `clean_data` raises: an IndexError from `iloc[0]` on an empty
transpose, or the ValueError from the 12-month list assignment.  The
per-city `except` block of the caller catches it, so the pipeline skips the
city rather than mislabel months. -/
theorem clean_data_short_grid_raises (grid : List (List String)) (a b c : String)
    (h : maxLen grid ≤ 12) :
    ∃ e, clean_data (mkDf grid) a b c = Except.error e := by
  apply clean_data_raises_of_short
  rw [mkDf_cols_length]
  exact h

/-- Witness for the amended C3 at a concrete 2-row, 1-column grid. -/
theorem clean_data_short_grid_raises_witness :
    ∃ e, clean_data (mkDf [["q"], ["r"]]) "X" "Y" "Z" = Except.error e :=
  clean_data_short_grid_raises [["q"], ["r"]] "X" "Y" "Z" (by decide)

/-- C4 counterexample: a synthetic grid of 12 rows with N = 1 columns does
not round-trip to 12 month rows — the transpose has 0 data rows after the
header, so `clean_data` raises the month-assignment ValueError. -/
theorem clean_data_12xN_counterexample :
    clean_data (mkDf (List.replicate 12 ["q"])) "E" "F" "G"
      = Except.error "ValueError: Length of values does not match length of index" := by
  rfl

/-- C4 (amended): for every synthetic grid of 12 rows by 13 columns (13,
not arbitrary N: transposing an N-column grid leaves N − 1 data rows after
the header), `clean_data` succeeds with exactly 12 rows whose Month column
is January..December in calendar order. -/
theorem clean_data_12x13_round_trip (grid : List (List String)) (a b c : String)
    (h12 : grid.length = 12) (h13 : ∀ r ∈ grid, r.length = 13) :
    ∃ res, clean_data (mkDf grid) a b c = Except.ok res ∧ res.nrows = 12 ∧
      res.getCol (some "Month") = some (months.map (fun m => some m)) := by
  apply clean_data_ok_of_13
  rw [mkDf_cols_length]
  refine maxLen_const grid 13 ?_ h13
  intro he
  rw [he] at h12
  simp at h12

/-- Witness for the amended C4 at a concrete 12-by-13 grid. -/
theorem clean_data_12x13_round_trip_witness :
    ∃ res, clean_data (mkDf (List.replicate 12 (List.replicate 13 "x"))) "a" "b" "c"
        = Except.ok res ∧ res.nrows = 12 ∧
      res.getCol (some "Month") = some (months.map (fun m => some m)) :=
  clean_data_12x13_round_trip (List.replicate 12 (List.replicate 13 "x")) "a" "b" "c"
    (by decide) (by decide)

/-- C9: in the flattened CSV view, a country with an empty cities mapping
contributes exactly one row (continent, country, country URL filled; city
and city URL null), and a country with k > 0 cities contributes exactly the
k rows obtained one-per-city; a one-country tree flattens to exactly that
country's rows. -/
theorem flatten_rows_per_country (cn kn : String) (k : CountryInfo) :
    (k.cities = [] → flattenCountry cn (kn, k) = [⟨cn, kn, k.url, none, none⟩]) ∧
    (k.cities ≠ [] → flattenCountry cn (kn, k)
        = k.cities.map (fun c => ⟨cn, kn, k.url, some c.1, some c.2⟩)) ∧
    (∀ u, flattenTree [(cn, ⟨u, [(kn, k)]⟩)] = flattenCountry cn (kn, k)) := by
  refine ⟨?_, ?_, ?_⟩
  · intro h
    simp [flattenCountry, h]
  · intro h
    cases hc : k.cities with
    | nil => exact absurd hc h
    | cons c cs => simp [flattenCountry, hc]
  · intro u
    simp [flattenTree]

/-- Witness for C9: a cityless country gives one null-city row, a country
with one city gives exactly that city's row. -/
theorem flatten_rows_per_country_witness :
    flattenCountry "Europe" ("France", ⟨"fu", []⟩)
        = [⟨"Europe", "France", "fu", none, none⟩] ∧
    flattenCountry "Europe" ("Germany", ⟨"du", [("Berlin", "bu")]⟩)
        = [⟨"Europe", "Germany", "du", some "Berlin", some "bu"⟩] :=
  ⟨(flatten_rows_per_country "Europe" "France" ⟨"fu", []⟩).1 rfl,
   (flatten_rows_per_country "Europe" "Germany" ⟨"du", [("Berlin", "bu")]⟩).2.1
     (by decide)⟩

/-- A page environment for C10: North America's page yields two anchors with
the same label `"A"` (different hrefs) followed by a third valid anchor. -/
def envC10 : String → Except Unit (List Anchor) := fun u =>
  if u = "https://en.climate-data.org/continent/north-america/" then
    Except.ok [⟨"A", some "u1"⟩, ⟨"A", some "u2"⟩, ⟨"B", some "u3"⟩]
  else Except.error ()

/-- C10: the max-countries cap counts every accepted insertion including a
duplicate-label overwrite: with `max_countries = 2` and three valid anchors
whose first two share the label `"A"`, the countries mapping ends with a
single entry (the later URL winning), strictly fewer than 2. -/
theorem duplicate_labels_count_cap :
    (extract_continents envC10 2).head? = some ("North America",
      ⟨"https://en.climate-data.org/continent/north-america/", [("A", ⟨"u2", []⟩)]⟩) ∧
    ((extract_continents envC10 2).head?.map (fun p => p.2.countries.length)) = some 1 := by
  constructor
  · rfl
  · rfl

theorem dictInsert_forall {α : Type} (P : String × α → Prop)
    (d : List (String × α)) (k : String) (v : α)
    (hd : ∀ e ∈ d, P e) (hv : P (k, v)) :
    ∀ e ∈ dictInsert d k v, P e := by
  intro e he
  unfold dictInsert at he
  by_cases hany : d.any (fun p => p.1 == k)
  · rw [if_pos hany] at he
    obtain ⟨p, hp, heq⟩ := List.mem_map.mp he
    by_cases hpk : p.1 = k
    · simp only [hpk, beq_self_eq_true, if_true] at heq
      exact heq ▸ hv
    · simp only [beq_eq_false_iff_ne.mpr hpk, Bool.false_eq_true, if_false] at heq
      exact heq ▸ hd p hp
  · rw [if_neg hany] at he
    rcases List.mem_append.mp he with h1 | h2
    · exact hd e h1
    · rw [List.mem_singleton] at h2
      exact h2 ▸ hv

theorem addCountries_cities_empty (max_countries : Nat) (anchors : List Anchor)
    (count : Nat) (acc : List (String × CountryInfo))
    (hacc : ∀ e ∈ acc, e.2.cities = []) :
    ∀ e ∈ addCountries max_countries anchors count acc, e.2.cities = [] := by
  induction anchors generalizing count acc with
  | nil => exact hacc
  | cons a rest ih =>
    cases ha : a.href with
    | none =>
      simp only [addCountries, ha]
      exact ih count acc hacc
    | some href =>
      by_cases hc : pyStrip a.text ≠ "" ∧ href ≠ ""
      · have hacc1 : ∀ e ∈ dictInsert acc (pyStrip a.text)
            (⟨href, []⟩ : CountryInfo), e.2.cities = [] :=
          dictInsert_forall (fun e => e.2.cities = []) acc (pyStrip a.text)
            ⟨href, []⟩ hacc rfl
        by_cases hbreak : max_countries ≠ 0 ∧ count + 1 ≥ max_countries
        · simp only [addCountries, ha, if_pos hc, if_pos hbreak]
          exact hacc1
        · simp only [addCountries, ha, if_pos hc, if_neg hbreak]
          exact ih (count + 1) _ hacc1
      · simp only [addCountries, ha, if_neg hc]
        exact ih count acc hacc

theorem extract_continents_cities_empty (fc : String → Except Unit (List Anchor))
    (m : Nat) :
    ∀ q ∈ extract_continents fc m, ∀ k ∈ q.2.countries, k.2.cities = [] := by
  intro q hq k hk
  simp only [extract_continents, List.mem_map] at hq
  obtain ⟨p, hp, rfl⟩ := hq
  dsimp only at hk
  revert hk
  cases hfc : fc p.2 with
  | error e =>
    intro hk
    exact absurd hk (List.not_mem_nil k)
  | ok anchors =>
    intro hk
    exact addCountries_cities_empty m anchors 0 [] (by intro e he; cases he) k hk

/-- C8: fetch/timeout failures never remove a branch or abort the walk.
All six seeded continents are present whatever the environments do; a
continent whose page fetch fails keeps an empty countries mapping; the
city-discovery pass preserves every continent and country entry (names and
URLs) recorded by the country pass; and a country whose city fetch fails is
left with zero cities. -/
theorem walk_failure_isolation (fc fk : String → Except Unit (List Anchor)) (m : Nat) :
    ((extract_continents fc m).map Prod.fst = CONTINENTS.map Prod.fst) ∧
    (∀ q ∈ extract_continents fc m,
      fc q.2.url = Except.error () → q.2.countries = []) ∧
    ((extract_cities fk (extract_continents fc m)).map
        (fun p => (p.1, p.2.url, p.2.countries.map (fun q => (q.1, q.2.url))))
      = (extract_continents fc m).map
        (fun p => (p.1, p.2.url, p.2.countries.map (fun q => (q.1, q.2.url))))) ∧
    (∀ p ∈ extract_cities fk (extract_continents fc m), ∀ q ∈ p.2.countries,
      fk q.2.url = Except.error () → q.2.cities = []) := by
  refine ⟨?_, ?_, ?_, ?_⟩
  · simp [extract_continents, CONTINENTS]
  · intro q hq herr
    simp only [extract_continents, List.mem_map] at hq
    obtain ⟨p, hp, rfl⟩ := hq
    dsimp only at herr ⊢
    rw [herr]
  · simp only [extract_cities, List.map_map]
    apply List.map_congr_left
    intro p hp
    simp only [Function.comp]
    rw [List.map_map]
    apply congrArg
    apply congrArg
    apply List.map_congr_left
    intro q hq
    rfl
  · intro p hp q hq herr
    simp only [extract_cities, List.mem_map] at hp
    obtain ⟨p0, hp0, rfl⟩ := hp
    dsimp only at hq
    obtain ⟨q0, hq0, rfl⟩ := List.mem_map.mp hq
    dsimp only at herr ⊢
    rw [herr]
    exact extract_continents_cities_empty fc m p0 hp0 q0 hq0

/-- Witness for C8 with both environments failing on every URL. -/
theorem walk_failure_isolation_witness :
    ((extract_continents (fun _ => Except.error ()) 0).map Prod.fst
      = CONTINENTS.map Prod.fst) ∧
    ((extract_cities (fun _ => Except.error ())
        (extract_continents (fun _ => Except.error ()) 0)).map
          (fun p => (p.1, p.2.url, p.2.countries.map (fun q => (q.1, q.2.url))))
      = (extract_continents (fun _ => Except.error ()) 0).map
          (fun p => (p.1, p.2.url, p.2.countries.map (fun q => (q.1, q.2.url))))) :=
  ⟨(walk_failure_isolation (fun _ => Except.error ()) (fun _ => Except.error ()) 0).1,
   (walk_failure_isolation (fun _ => Except.error ()) (fun _ => Except.error ()) 0).2.2.1⟩

/-- C7: on a continent page yielding five valid country anchors (non-empty
stripped text and href) with distinct labels, `extract_continents` with
`max_countries = 2` records exactly the first two in document order, and
with `max_countries = 0` no cap is applied: all five are recorded, in
order. -/
theorem max_countries_cap (f : String → Except Unit (List Anchor))
    (a1 a2 a3 a4 a5 : Anchor) (u1 u2 u3 u4 u5 : String)
    (hf : f "https://en.climate-data.org/continent/north-america/"
      = Except.ok [a1, a2, a3, a4, a5])
    (hh1 : a1.href = some u1) (hh2 : a2.href = some u2) (hh3 : a3.href = some u3)
    (hh4 : a4.href = some u4) (hh5 : a5.href = some u5)
    (ht1 : pyStrip a1.text ≠ "") (ht2 : pyStrip a2.text ≠ "")
    (ht3 : pyStrip a3.text ≠ "") (ht4 : pyStrip a4.text ≠ "")
    (ht5 : pyStrip a5.text ≠ "")
    (hu1 : u1 ≠ "") (hu2 : u2 ≠ "") (hu3 : u3 ≠ "") (hu4 : u4 ≠ "") (hu5 : u5 ≠ "")
    (hnd : [pyStrip a1.text, pyStrip a2.text, pyStrip a3.text,
            pyStrip a4.text, pyStrip a5.text].Nodup) :
    (extract_continents f 2).head? = some ("North America",
      ⟨"https://en.climate-data.org/continent/north-america/",
       [(pyStrip a1.text, ⟨u1, []⟩), (pyStrip a2.text, ⟨u2, []⟩)]⟩) ∧
    (extract_continents f 0).head? = some ("North America",
      ⟨"https://en.climate-data.org/continent/north-america/",
       [(pyStrip a1.text, ⟨u1, []⟩), (pyStrip a2.text, ⟨u2, []⟩),
        (pyStrip a3.text, ⟨u3, []⟩), (pyStrip a4.text, ⟨u4, []⟩),
        (pyStrip a5.text, ⟨u5, []⟩)]⟩) := by
  simp only [List.nodup_cons, List.mem_cons, List.mem_singleton, List.not_mem_nil,
    not_or, List.nodup_nil, and_true] at hnd
  obtain ⟨⟨h12, h13, h14, h15⟩, ⟨h23, h24, h25⟩, ⟨h34, h35⟩, h45⟩ := hnd
  constructor
  · simp [extract_continents, CONTINENTS, hf, addCountries, dictInsert,
      hh1, hh2, hh3, hh4, hh5, ht1, ht2, ht3, ht4, ht5,
      hu1, hu2, hu3, hu4, hu5, h12, h13, h14, h15, h23, h24, h25, h34, h35, h45]
  · simp [extract_continents, CONTINENTS, hf, addCountries, dictInsert,
      hh1, hh2, hh3, hh4, hh5, ht1, ht2, ht3, ht4, ht5,
      hu1, hu2, hu3, hu4, hu5, h12, h13, h14, h15, h23, h24, h25, h34, h35, h45]

/-- A page environment for the C7 witness: North America's page yields five
valid, distinctly labelled country anchors. -/
def envC7 : String → Except Unit (List Anchor) := fun u =>
  if u = "https://en.climate-data.org/continent/north-america/" then
    Except.ok [⟨"Canada", some "cu"⟩, ⟨"Mexico", some "mu"⟩, ⟨"Cuba", some "ku"⟩,
               ⟨"Haiti", some "hu"⟩, ⟨"Belize", some "eu"⟩]
  else Except.error ()

/-- Witness for C7 at the concrete five-anchor environment. -/
theorem max_countries_cap_witness :
    (extract_continents envC7 2).head? = some ("North America",
      ⟨"https://en.climate-data.org/continent/north-america/",
       [(pyStrip "Canada", ⟨"cu", []⟩), (pyStrip "Mexico", ⟨"mu", []⟩)]⟩) ∧
    (extract_continents envC7 0).head? = some ("North America",
      ⟨"https://en.climate-data.org/continent/north-america/",
       [(pyStrip "Canada", ⟨"cu", []⟩), (pyStrip "Mexico", ⟨"mu", []⟩),
        (pyStrip "Cuba", ⟨"ku", []⟩), (pyStrip "Haiti", ⟨"hu", []⟩),
        (pyStrip "Belize", ⟨"eu", []⟩)]⟩) :=
  max_countries_cap envC7 ⟨"Canada", some "cu"⟩ ⟨"Mexico", some "mu"⟩
    ⟨"Cuba", some "ku"⟩ ⟨"Haiti", some "hu"⟩ ⟨"Belize", some "eu"⟩
    "cu" "mu" "ku" "hu" "eu" rfl rfl rfl rfl rfl rfl
    (by decide) (by decide) (by decide) (by decide) (by decide)
    (by decide) (by decide) (by decide) (by decide) (by decide)
    (by decide)
